import Mathlib

/-!
# Verification of the `black-client` blackd client

Shallow embedding of `src/main.go` (the pipelined, multi-daemon variant: the
file contains two program snapshots; the second one — `main`, `walkDirectories`,
`report`, `processPath`, `printDiff`, `printDiffHeader`, `newBlackResult`,
`overwritePath`, `newStringFromReader` — is the one modelled here, with the
first, single-daemon snapshot kept only where the two disagree).

Streams (HTTP response bodies) are modelled as either fully available byte
sequences or streams that fail at the first read; bytes are modelled as `Char`.
-/

namespace BlackClient

/-- The four terminal outcomes for one path (`type Action int` in main.go). -/
inductive Action
  | Unchanged
  | Reformatted
  | WouldBeReformatted
  | Error
deriving DecidableEq, Repr

/-- The per-run configuration fields the core reads (`type BlackConfig`;
the URL field plays no role in the modelled logic). -/
structure BlackConfig where
  check : Bool
  diff : Bool
deriving DecidableEq, Repr

/-! ## Aggregator (`report`, main.go lines 353–393) -/

/-- The aggregator's mutable state: the exit code and the three counters of
`report`. -/
structure ReportState where
  exitCode : Nat
  unchangedCount : Nat
  reformattedCount : Nat
  errorCount : Nat
deriving DecidableEq, Repr

/-- One iteration of `report`'s `for act := range actQueue` switch. -/
def reportStep (s : ReportState) (act : Action) : ReportState :=
  match act with
  | .Unchanged => { s with unchangedCount := s.unchangedCount + 1 }
  | .Reformatted => { s with reformattedCount := s.reformattedCount + 1 }
  | .WouldBeReformatted =>
      { s with
        reformattedCount := s.reformattedCount + 1,
        exitCode := if s.exitCode < 1 then 1 else s.exitCode }
  | .Error => { s with errorCount := s.errorCount + 1, exitCode := 123 }

/-- `report`'s consumption loop over the whole (closed) action queue, starting
from `exitCode = 0` and all counters `0`. -/
def reportLoop (acts : List Action) : ReportState :=
  List.foldl reportStep ⟨0, 0, 0, 0⟩ acts

/-- One `reportCount` call (main.go lines 395–412), appending to the builder. -/
def reportCount (buf : String) (check : Bool) (count : Nat)
    (statusWithCheck statusWithoutCheck : String) : String :=
  let b := if buf.length > 0 then buf ++ ", " else buf
  let b := b ++ toString count ++ " file"
  let b := if count > 1 then b ++ "s " else b ++ " "
  if check then b ++ statusWithCheck else b ++ statusWithoutCheck

/-- The comma-joined summary `report` assembles when at least one counter is
non-zero (reformatted first, then unchanged, then errors, closed by a period). -/
def reportSummary (check : Bool) (s : ReportState) : String :=
  let b := ""
  let b := if s.reformattedCount > 0 then
    reportCount b check s.reformattedCount "would be reformatted" "reformatted" else b
  let b := if s.unchangedCount > 0 then
    reportCount b check s.unchangedCount "would be left unchanged" "left unchanged" else b
  let b := if s.errorCount > 0 then
    reportCount b check s.errorCount "would fail to reformat" "failed to reformat" else b
  b ++ "."

/-- The line printed by `fmt.Println` when all counters are zero. -/
def nothingToDoMessage : String :=
  "No Python files are present to be formatted. Nothing to do 😴"

/-- What `report` prints after the loop: the `nothingToDoMessage` on stdout
when every counter is zero (the count summary is not built in that branch),
otherwise the assembled count summary via `log.Println`. -/
inductive ReportOutput
  | nothingToDo
  | summary (line : String)
deriving DecidableEq, Repr

/-- `report` as a whole: exit code returned to `main` plus the final line. -/
def report (check : Bool) (acts : List Action) : Nat × ReportOutput :=
  let s := reportLoop acts
  if s.unchangedCount = 0 ∧ s.reformattedCount = 0 ∧ s.errorCount = 0 then
    (s.exitCode, .nothingToDo)
  else
    (s.exitCode, .summary (reportSummary check s))

/-! ## The dispatch pipeline (`main`, main.go lines 296–327)

`main` starts one goroutine per configured port; each loops
`for path := range pathQueue { actQueue <- processPath(conf, path) }`, and
`actQueue` is closed once every worker has exited.  The pipeline is modelled
as a transition system: a state holds the paths still queued, the paths some
worker has pulled but not yet answered for, and the actions delivered so far.
`act` abstracts `processPath conf` (each worker computes the same function of
the path), and `M` is the pool size (`len(*ports)`). -/

/-- A pipeline state: pending path queue, paths currently held by workers,
and the actions already sent on the action queue. -/
structure PoolState where
  queue : List String
  inflight : List String
  acts : List Action
deriving DecidableEq, Repr

/-- One scheduler step of the pipeline: a worker either pulls the next path
off the path queue (when fewer than `M` paths are in flight), or finishes a
pulled path, appending its one action to the action queue. -/
inductive PoolStep (act : String → Action) (M : Nat) : PoolState → PoolState → Prop
  | take (p : String) (rest infl : List String) (acts : List Action) :
      infl.length < M →
      PoolStep act M ⟨p :: rest, infl, acts⟩ ⟨rest, p :: infl, acts⟩
  | emit (q infl : List String) (acts : List Action) (p : String) :
      p ∈ infl →
      PoolStep act M ⟨q, infl, acts⟩ ⟨q, infl.erase p, acts ++ [act p]⟩

/-- The initial pipeline state: all candidate paths queued, nothing in flight,
no action delivered. -/
def initialState (paths : List String) : PoolState :=
  ⟨paths, [], []⟩

/-- The states an `M`-worker run over `paths` can pass through. -/
def Reachable (act : String → Action) (M : Nat) (paths : List String)
    (s : PoolState) : Prop :=
  Relation.ReflTransGen (PoolStep act M) (initialState paths) s

/-! ## Daemon client (`newBlackResult`, `newStringFromReader`,
main.go lines 522–535 and 570–577)

An HTTP response body is modelled as a stream that either delivers its full
byte content or fails at the first read. -/

/-- A response-body stream: fully readable content, or a read failure. -/
inductive BodyStream
  | ok (content : List Char)
  | failed
deriving DecidableEq, Repr

/-- `newStringFromReader` (main.go 570–577): drains the reader into a string;
on a read error it calls `panic(err)`, modelled as `none` (the panic
propagates and terminates the process). -/
def newStringFromReader : BodyStream → Option (List Char)
  | .ok s => some s
  | .failed => none

/-- The possible outcomes of `newBlackResult` (main.go 522–535): a
`BlackResult` (`Changed` flag plus body stream), a `BlackError` (`Syntax` flag
plus message), a panic escaping from `newStringFromReader`, or the
`log.Fatalf` abort on an unsupported status. -/
inductive BlackStep
  | result (changed : Bool) (text : BodyStream)
  | error (syntaxFlag : Bool) (msg : List Char)
  | panicked
  | fatal
deriving DecidableEq, Repr

/-- `newBlackResult`: deterministic classification of the daemon response by
HTTP status code.  `204` gives `&BlackResult{}` (`Changed = false`, `Text`
nil — modelled as an empty stream, it is never read); `200` gives
`Changed = true` with the body; `400`/`500` read the whole body into a
`BlackError` message (`Syntax = true` for `400`); any other status hits
`log.Fatalf`, aborting the run. -/
def newBlackResult (status : Nat) (body : BodyStream) : BlackStep :=
  if status = 204 then .result false (.ok [])
  else if status = 200 then .result true body
  else if status = 400 then
    match newStringFromReader body with
    | some msg => .error true msg
    | none => .panicked
  else if status = 500 then
    match newStringFromReader body with
    | some msg => .error false msg
    | none => .panicked
  else .fatal

/-! ## Diff printing (`printDiff`, `printDiffHeader`, main.go lines 450–474) -/

/-- `bufio.Reader.ReadString` with delimiter newline: the first
newline-terminated line (newline included) and the rest, or `none` when the
input ends before a newline (`printDiffHeader` discards the partial data and
reports failure in that case). -/
def readLine : List Char → Option (List Char × List Char)
  | [] => none
  | c :: rest =>
      if c = '\n' then some ([c], rest)
      else
        match readLine rest with
        | none => none
        | some (l, r) => some (c :: l, r)

/-- Reading one line from a body stream; a failed stream fails the read. -/
def streamReadLine : BodyStream → Option (List Char × List Char)
  | .ok s => readLine s
  | .failed => none

/-- `strings.Replace(s, old, new, 1)`: replaces the first occurrence of `old`
in `s` by `new` (with Go's convention that an empty `old` matches at the
start). -/
def replaceFirst (s old new : List Char) : List Char :=
  if old.isPrefixOf s then new ++ s.drop old.length
  else
    match s with
    | [] => []
    | c :: rest => c :: replaceFirst rest old new
termination_by s.length

/-- `printDiffHeader` (main.go 466–474): reads one newline-terminated line,
substitutes the real path for the first occurrence of the placeholder, and
writes the line to stdout; returns `none` (failure, nothing written) when the
read errors. -/
def printDiffHeader (path oldPath : List Char) (buf : BodyStream) :
    Option (List Char × List Char) :=
  match streamReadLine buf with
  | none => none
  | some (header, rest) => some (replaceFirst header oldPath path, rest)

/-- `printDiff` (main.go 450–464): substitutes the two placeholder header
lines ("In" then "Out"), then copies the remaining body to stdout.  Returns
whether it succeeded together with everything written to stdout (successful
header writes happen before a later failure is detected). -/
def printDiff (path : List Char) (diff : BodyStream) : Bool × List Char :=
  match printDiffHeader path ['I', 'n'] diff with
  | none => (false, [])
  | some (h1, rest1) =>
      match printDiffHeader path ['O', 'u', 't'] (.ok rest1) with
      | none => (false, h1)
      | some (h2, rest2) => (true, h1 ++ h2 ++ rest2)

/-! ## File rewriter (`overwritePath`, main.go lines 537–552) -/

/-- `bufio.NewWriter`'s default buffer size. -/
def bufSize : Nat := 4096

/-- The size of the intermediate buffer `io.Copy` reads through. -/
def copyChunkSize : Nat := 32768

/-- A `bufio.Writer` over an open file: the bytes currently buffered (at most
`bufSize`) and the bytes already written through to the file. -/
structure BufWriter where
  buf : List Char
  out : List Char
deriving DecidableEq, Repr

/-- `bufio.Writer.Write`: while the chunk exceeds the space available, either
write it straight through (large write into an empty buffer) or fill the
buffer and flush it; whatever then fits is merely buffered. -/
def bwWrite (w : BufWriter) (p : List Char) : BufWriter :=
  if h : bufSize - w.buf.length < p.length then
    if hb : w.buf.length = 0 then
      ⟨[], w.out ++ p⟩
    else
      bwWrite ⟨[], w.out ++ w.buf ++ p.take (bufSize - w.buf.length)⟩
        (p.drop (bufSize - w.buf.length))
  else
    ⟨w.buf ++ p, w.out⟩
termination_by p.length + w.buf.length
decreasing_by
  simp only [List.length_drop, List.length_nil]
  have hp : 0 < w.buf.length := Nat.pos_of_ne_zero hb
  omega

/-- `io.Copy(w, src)` into a `bufio.Writer`, reading the source in chunks of
at most `copyChunkSize` bytes. -/
def ioCopy (w : BufWriter) (src : List Char) : BufWriter :=
  if src.isEmpty then w
  else ioCopy (bwWrite w (src.take copyChunkSize)) (src.drop copyChunkSize)
termination_by src.length
decreasing_by
  rename_i h
  have hne : src ≠ [] := by simpa [List.isEmpty_iff] using h
  have hpos : 0 < src.length := List.length_pos.mpr hne
  simp only [List.length_drop, copyChunkSize]
  omega

/-- The filesystem behaviour injected into `overwritePath`: whether
`os.Create` and `file.Sync` succeed. -/
structure FsEnv where
  createOk : Bool
  syncOk : Bool
deriving DecidableEq, Repr

/-- What one `overwritePath` call did: whether it returned `nil` error, and
the file's resulting content (`none` when `os.Create` failed and the file was
not touched). -/
structure OverwriteResult where
  success : Bool
  file : Option (List Char)
deriving DecidableEq, Repr

/-- `overwritePath` (main.go 537–552): `os.Create` truncates the file, the
content is copied into a `bufio.Writer` over it, then `file.Sync` runs — but
the `bufio.Writer` is never flushed, so only the bytes it wrote through reach
the file.  A failed source stream fails the copy right after the truncation;
a `Sync` failure is returned as an error. -/
def overwritePath (fs : FsEnv) (newContents : BodyStream) : OverwriteResult :=
  if fs.createOk then
    match newContents with
    | .failed => ⟨false, some []⟩
    | .ok content =>
        let w := ioCopy ⟨[], []⟩ content
        if fs.syncOk then ⟨true, some w.out⟩ else ⟨false, some w.out⟩
  else ⟨false, none⟩

/-! ## Worker body (`processPath`, main.go lines 414–448) -/

/-- What a worker can do with one path: that path's `Action` on the action
queue, a `log.Fatalf` abort of the whole run, or an escaped panic terminating
the process. -/
inductive ProcOutcome
  | action (a : Action)
  | fatal
  | panicked
deriving DecidableEq, Repr

/-- The query step feeding `processPath`: `queryBlackd` either fails
(`os.Open` error or transport error — both return a non-nil `err`) or yields
a response with a status code and a body stream. -/
inductive QueryOutcome
  | failure
  | response (status : Nat) (body : BodyStream)
deriving DecidableEq, Repr

/-- Everything observable about one `processPath` call: its outcome, what it
wrote to stdout, and the file content written by `overwritePath` (`none` when
the rewriter was not invoked or did not get past `os.Create`). -/
structure ProcResult where
  outcome : ProcOutcome
  stdout : List Char
  fileWrite : Option (List Char)
deriving DecidableEq, Repr

/-- `processPath` (main.go 414–448).  A query failure is logged and becomes
`Error`.  Otherwise `newBlackResult` classifies the response: errors are
logged and become `Error`; unchanged results become `Unchanged`.  For a
changed result: in diff mode the diff is printed (a malformed diff is
`Error`, with whatever was already printed on stdout); check mode answers
`WouldBeReformatted`; otherwise `overwritePath` rewrites the file — note that
a successful diff print has already drained the body, so the rewrite then
sees an empty stream. -/
def processPath (conf : BlackConfig) (path : List Char) (q : QueryOutcome)
    (fs : FsEnv) : ProcResult :=
  match q with
  | .failure => ⟨.action .Error, [], none⟩
  | .response status body =>
      match newBlackResult status body with
      | .fatal => ⟨.fatal, [], none⟩
      | .panicked => ⟨.panicked, [], none⟩
      | .error _ _ => ⟨.action .Error, [], none⟩
      | .result changed text =>
          if changed then
            if conf.diff then
              match printDiff path text with
              | (false, out) => ⟨.action .Error, out, none⟩
              | (true, out) =>
                  if conf.check then ⟨.action .WouldBeReformatted, out, none⟩
                  else
                    let r := overwritePath fs (.ok [])
                    if r.success then ⟨.action .Reformatted, out, r.file⟩
                    else ⟨.action .Error, out, r.file⟩
            else if conf.check then ⟨.action .WouldBeReformatted, [], none⟩
            else
              let r := overwritePath fs text
              if r.success then ⟨.action .Reformatted, [], r.file⟩
              else ⟨.action .Error, [], r.file⟩
          else ⟨.action .Unchanged, [], none⟩

/-! ## Traversal (`walkDirectories`, main.go lines 329–351)

`godirwalk.Walk` hands the callback each visited entry together with its
`Dirent` mode; the callback decides whether to send the path on the path
queue. -/

/-- The mode of a directory entry as `godirwalk.Dirent` reports it
(`IsRegular`, `IsSymlink`, `IsDir`, anything else). -/
inductive EntryKind
  | regular
  | symlink
  | directory
  | other
deriving DecidableEq, Repr

/-- `strings.HasSuffix(s, suf)`, on the character sequences of the two
strings. -/
def hasSuffix (s suf : String) : Bool :=
  suf.data.isSuffixOf s.data

/-- The candidate test in `walkDirectories`'s callback (main.go line 336):
`de.IsRegular() && strings.HasSuffix(path, ".py")`. -/
def walkCallbackEnqueues (kind : EntryKind) (path : String) : Bool :=
  kind == .regular && hasSuffix path ".py"

/-- `walkDirectories` seen as the sequence of paths it sends on the path
queue, given the entries the traversal visits. -/
def walkDirectories (entries : List (EntryKind × String)) : List String :=
  entries.filterMap fun e => if walkCallbackEnqueues e.1 e.2 then some e.2 else none

/-- The candidate test of the single-daemon snapshot (first half of main.go,
line 62): `(de.IsRegular() || de.IsSymlink()) && strings.HasSuffix(path, ".py")`. -/
def mainCallbackSelects (kind : EntryKind) (path : String) : Bool :=
  (kind == .regular || kind == .symlink) && hasSuffix path ".py"

/-! ## Aggregator lemmas -/

/-- Each consumed action increments exactly one of the three counters. -/
theorem reportStep_counts (s : ReportState) (a : Action) :
    (reportStep s a).unchangedCount + (reportStep s a).reformattedCount
      + (reportStep s a).errorCount
      = s.unchangedCount + s.reformattedCount + s.errorCount + 1 := by
  cases a <;> simp [reportStep] <;> omega

theorem foldl_reportStep_counts (acts : List Action) (s : ReportState) :
    (List.foldl reportStep s acts).unchangedCount
      + (List.foldl reportStep s acts).reformattedCount
      + (List.foldl reportStep s acts).errorCount
      = s.unchangedCount + s.reformattedCount + s.errorCount + acts.length := by
  induction acts generalizing s with
  | nil => simp
  | cons a rest ih =>
      simp only [List.foldl_cons, ih (reportStep s a), reportStep_counts, List.length_cons]
      omega

/-- The exit code computed by the loop, as a function of which actions occur. -/
theorem foldl_reportStep_exitCode (acts : List Action) (s : ReportState) :
    (List.foldl reportStep s acts).exitCode =
      if Action.Error ∈ acts then 123
      else if Action.WouldBeReformatted ∈ acts then max 1 s.exitCode
      else s.exitCode := by
  induction acts generalizing s with
  | nil => simp
  | cons a rest ih =>
      cases a <;>
        simp only [List.foldl_cons, ih, reportStep, List.mem_cons, false_or, or_false,
          true_or, reduceCtorEq] <;>
        (split_ifs <;> omega)

/-- C2: for every sequence of actions consumed by the aggregator, the final
exit code is 123 if at least one action is `Error`; otherwise 1 if at least
one action is `WouldBeReformatted`; otherwise 0 — independently of where in
the sequence an `Error` occurs relative to a `WouldBeReformatted`. -/
theorem c2_exit_code_precedence (check : Bool) (acts : List Action) :
    (report check acts).1 =
      if Action.Error ∈ acts then 123
      else if Action.WouldBeReformatted ∈ acts then 1
      else 0 := by
  have h1 : (report check acts).1 = (reportLoop acts).exitCode := by
    simp only [report]
    split <;> rfl
  rw [h1, reportLoop, foldl_reportStep_exitCode]
  split_ifs <;> simp

/-- C9: if all three counters are zero when the action queue closes, `report`
prints the distinct "nothing to do" message (the count summary is not built)
and the run exits with code 0. -/
theorem c9_nothing_to_do (check : Bool) (acts : List Action)
    (h : (reportLoop acts).unchangedCount = 0 ∧ (reportLoop acts).reformattedCount = 0
         ∧ (reportLoop acts).errorCount = 0) :
    report check acts = (0, ReportOutput.nothingToDo) := by
  have hsum := foldl_reportStep_counts acts ⟨0, 0, 0, 0⟩
  rw [show List.foldl reportStep ⟨0, 0, 0, 0⟩ acts = reportLoop acts from rfl] at hsum
  have hlen : acts.length = 0 := by omega
  have hacts : acts = [] := List.eq_nil_of_length_eq_zero hlen
  subst hacts
  simp [report, reportLoop]

/-- Witness for C9 at the empty action sequence. -/
theorem c9_nothing_to_do_witness :
    report false [] = (0, ReportOutput.nothingToDo) :=
  c9_nothing_to_do false [] (by simp [reportLoop])

/-- Pipeline invariant: at every reachable state, the actions of the queued
paths, the in-flight paths and the delivered actions together are exactly the
actions of all candidate paths (as multisets — no drops, no duplicates). -/
theorem pool_invariant (act : String → Action) (M : Nat) (paths : List String)
    (s : PoolState) (h : Reachable act M paths s) :
    (↑(s.queue.map act) + ↑(s.inflight.map act) + ↑s.acts : Multiset Action)
      = ↑(paths.map act) := by
  induction h with
  | refl => simp [initialState]
  | tail hsteps hstep ih =>
      cases hstep with
      | take p rest infl acts hM =>
          simp only [List.map_cons] at ih ⊢
          rw [← ih]
          simp only [← Multiset.cons_coe, ← Multiset.singleton_add]
          abel
      | emit q infl acts p hp =>
          have hperm : List.Perm (infl.map act) (act p :: (infl.erase p).map act) :=
            (List.perm_cons_erase hp).map act
          simp only [List.map_cons] at ih ⊢
          rw [← ih, Multiset.coe_eq_coe.mpr hperm]
          simp only [← Multiset.coe_add, ← Multiset.cons_coe, Multiset.coe_nil,
            ← Multiset.singleton_add, add_zero]
          abel

/-- C1: for any pool size `M ≥ 1` and any complete run (path queue drained,
no path still in flight) over `N` candidate paths, the aggregator consumes
exactly `N` actions — one per path, no drops, no duplicates — and its three
counters sum to `N`. -/
theorem c1_exactly_one_action_per_path (act : String → Action) (M : Nat)
    (paths : List String) (s : PoolState)
    (hM : 1 ≤ M) (hreach : Reachable act M paths s)
    (hq : s.queue = []) (hw : s.inflight = []) :
    s.acts.length = paths.length ∧
    List.Perm s.acts (paths.map act) ∧
    (reportLoop s.acts).unchangedCount + (reportLoop s.acts).reformattedCount
      + (reportLoop s.acts).errorCount = paths.length := by
  have hinv := pool_invariant act M paths s hreach
  rw [hq, hw] at hinv
  simp only [List.map_nil, Multiset.coe_nil, zero_add] at hinv
  have hperm : List.Perm s.acts (paths.map act) := Multiset.coe_eq_coe.mp hinv
  have hlen : s.acts.length = paths.length := by
    simpa [List.length_map] using hperm.length_eq
  refine ⟨hlen, hperm, ?_⟩
  have hsum := foldl_reportStep_counts s.acts ⟨0, 0, 0, 0⟩
  rw [show List.foldl reportStep ⟨0, 0, 0, 0⟩ s.acts = reportLoop s.acts from rfl] at hsum
  simp only [Nat.zero_add] at hsum
  omega

/-- Witness for C1: a one-worker run over one path that takes it, answers
`Unchanged`, and terminates. -/
theorem c1_exactly_one_action_per_path_witness :
    (⟨[], [], [Action.Unchanged]⟩ : PoolState).acts.length = ["a.py"].length ∧
    List.Perm (⟨[], [], [Action.Unchanged]⟩ : PoolState).acts
      (["a.py"].map (fun _ => Action.Unchanged)) ∧
    (reportLoop (⟨[], [], [Action.Unchanged]⟩ : PoolState).acts).unchangedCount
      + (reportLoop (⟨[], [], [Action.Unchanged]⟩ : PoolState).acts).reformattedCount
      + (reportLoop (⟨[], [], [Action.Unchanged]⟩ : PoolState).acts).errorCount
      = ["a.py"].length := by
  refine c1_exactly_one_action_per_path (fun _ => Action.Unchanged) 1 ["a.py"]
    ⟨[], [], [Action.Unchanged]⟩ (by decide) ?_ rfl rfl
  have h1 : PoolStep (fun _ => Action.Unchanged) 1
      ⟨["a.py"], [], []⟩ ⟨[], ["a.py"], []⟩ :=
    PoolStep.take "a.py" [] [] [] (by decide)
  have h2 : PoolStep (fun _ => Action.Unchanged) 1
      ⟨[], ["a.py"], []⟩ ⟨[], [], [Action.Unchanged]⟩ := by
    have h : PoolStep (fun _ => Action.Unchanged) 1 ⟨[], ["a.py"], []⟩
        ⟨[], ["a.py"].erase "a.py", [] ++ [(fun _ => Action.Unchanged) "a.py"]⟩ :=
      PoolStep.emit [] ["a.py"] [] "a.py" (by simp)
    simpa using h
  exact Relation.ReflTransGen.head h1 (Relation.ReflTransGen.head h2 .refl)

/-! ## Diff-reading lemmas -/

/-- `readLine` on a newline-terminated line followed by anything returns that
line (newline included) and the remainder. -/
theorem readLine_append (l r : List Char) (h : '\n' ∉ l) :
    readLine (l ++ '\n' :: r) = some (l ++ ['\n'], r) := by
  induction l with
  | nil => simp [readLine]
  | cons c cs ih =>
      simp only [List.mem_cons, not_or] at h
      have hc : ¬(c = '\n') := fun hc => h.1 hc.symm
      simp [readLine, hc, ih h.2]

/-- `readLine` fails on input that contains no newline. -/
theorem readLine_eq_none (l : List Char) (h : '\n' ∉ l) : readLine l = none := by
  induction l with
  | nil => rfl
  | cons c cs ih =>
      simp only [List.mem_cons, not_or] at h
      have hc : ¬(c = '\n') := fun hc => h.1 hc.symm
      simp [readLine, hc, ih h.2]

/-- Substituting a newline-free placeholder cannot erase the newline of a
header line. -/
theorem newline_mem_replaceFirst (s old new : List Char) (hs : '\n' ∈ s)
    (hold : '\n' ∉ old) : '\n' ∈ replaceFirst s old new := by
  induction s with
  | nil => cases hs
  | cons c cs ih =>
      rw [replaceFirst]
      split
      · rename_i hpre
        rcases List.isPrefixOf_iff_prefix.mp hpre with ⟨t, ht⟩
        have hdrop : (c :: cs).drop old.length = t := by
          rw [← ht, List.drop_left]
        rw [hdrop]
        have : '\n' ∈ old ++ t := by rw [ht]; exact hs
        rcases List.mem_append.mp this with h | h
        · exact absurd h hold
        · exact List.mem_append.mpr (Or.inr h)
      · rcases List.mem_cons.mp hs with h | h
        · exact List.mem_cons.mpr (Or.inl h)
        · exact List.mem_cons.mpr (Or.inr (ih h))

/-! ## Claim theorems (daemon client, classifier, rewriter, traversal) -/

/-- C3: the daemon client classifies responses deterministically by status
code — 204 is `Changed = false`; 200 is `Changed = true` with the body as the
content/diff stream; 400 is a syntax error whose message is the full body
text; 500 is a non-syntax error whose message is the full body text; any
other status aborts the whole run (`log.Fatalf`), not a per-path `Error`. -/
theorem c3_status_classification (conf : BlackConfig) (path s : List Char)
    (fs : FsEnv) (b : BodyStream) (n : Nat)
    (hn : n ≠ 204 ∧ n ≠ 200 ∧ n ≠ 400 ∧ n ≠ 500) :
    newBlackResult 204 b = .result false (.ok []) ∧
    newBlackResult 200 b = .result true b ∧
    newBlackResult 400 (.ok s) = .error true s ∧
    newBlackResult 500 (.ok s) = .error false s ∧
    newBlackResult n b = .fatal ∧
    (processPath conf path (.response n b) fs).outcome = .fatal := by
  obtain ⟨h1, h2, h3, h4⟩ := hn
  refine ⟨rfl, by simp [newBlackResult], rfl, rfl, ?_, ?_⟩
  · simp [newBlackResult, h1, h2, h3, h4]
  · simp [processPath, newBlackResult, h1, h2, h3, h4]

/-- Witness for C3 at status 301 and message "m". -/
theorem c3_status_classification_witness :
    newBlackResult 204 (.ok []) = .result false (.ok []) ∧
    newBlackResult 200 (.ok []) = .result true (.ok []) ∧
    newBlackResult 400 (.ok ['m']) = .error true ['m'] ∧
    newBlackResult 500 (.ok ['m']) = .error false ['m'] ∧
    newBlackResult 301 (.ok []) = .fatal ∧
    (processPath ⟨false, false⟩ ['a'] (.response 301 (.ok [])) ⟨true, true⟩).outcome
      = .fatal :=
  c3_status_classification ⟨false, false⟩ ['a'] ['m'] ⟨true, true⟩ (.ok []) 301
    (by decide)

/-- C4 fails on the code: with diff mode on and check mode off, after a
successful diff print `processPath` still calls `overwritePath` on the
already-drained body, so the file IS modified — truncated to empty — even
though the `--diff` help text promises "Don't write the files back".  Here
the daemon reports a change with a well-formed diff, and the run rewrites the
file to zero bytes while answering `Reformatted`. -/
theorem c4_diff_mode_truncates_file :
    processPath ⟨false, true⟩ ['a', '.', 'p', 'y']
        (.response 200 (.ok (['-', 'I', 'n', '\n'] ++ ['+', 'O', 'u', 't', '\n']
          ++ ['@', '@'])))
        ⟨true, true⟩
      = ⟨.action .Reformatted,
         ['-'] ++ ['a', '.', 'p', 'y'] ++ ['\n'] ++ ['+'] ++ ['a', '.', 'p', 'y']
           ++ ['\n'] ++ ['@', '@'],
         some []⟩ := by
  simp [processPath, newBlackResult, newStringFromReader, printDiff, printDiffHeader,
    streamReadLine, readLine, replaceFirst, overwritePath, ioCopy, bwWrite, bufSize,
    copyChunkSize]

/-- C5 fails on the code: `overwritePath` never flushes its `bufio.Writer`,
so content that never fills the 4096-byte buffer is silently dropped: the
call reports success while the file, truncated by `os.Create`, stays empty. -/
theorem c5_success_without_writing :
    overwritePath ⟨true, true⟩ (.ok ['x']) = ⟨true, some []⟩ ∧
    some ([] : List Char) ≠ some ['x'] := by
  refine ⟨?_, by decide⟩
  simp [overwritePath, ioCopy, bwWrite, bufSize, copyChunkSize]

/-- C6 fails on the code: `walkDirectories`'s callback enqueues only regular
files (`de.IsRegular()`), so a symbolic link whose name ends in ".py" is
silently dropped — although the single-daemon snapshot in the same file
selects it (`de.IsRegular() || de.IsSymlink()`) and the fixture script
creates such links. -/
theorem c6_symlink_not_enqueued :
    walkDirectories [(EntryKind.symlink, "link-to-quotes.py")] = [] ∧
    walkCallbackEnqueues .symlink "link-to-quotes.py" = false ∧
    mainCallbackSelects .symlink "link-to-quotes.py" = true ∧
    walkCallbackEnqueues .regular "quotes.py" = true ∧
    walkCallbackEnqueues .regular "notes.txt" = false := by
  decide

/-- C7: for a changed result in diff mode, the classifier substitutes the
real path for the placeholder in each of the two newline-terminated header
lines ("In" in the first, "Out" in the second), streams the remaining diff
body to stdout byte-identical to the daemon's body — and answers `Error`
whenever the first header line is missing/unterminated or the second one
is. -/
theorem c7_diff_headers_and_body (path l1 l2 body d : List Char)
    (h1 : '\n' ∉ l1) (h2 : '\n' ∉ l2) (hd : '\n' ∉ d) :
    printDiff path (.ok (l1 ++ '\n' :: (l2 ++ '\n' :: body))) =
      (true, replaceFirst (l1 ++ ['\n']) ['I', 'n'] path
        ++ (replaceFirst (l2 ++ ['\n']) ['O', 'u', 't'] path ++ body)) ∧
    (printDiff path (.ok d)).1 = false ∧
    (printDiff path (.ok (l1 ++ '\n' :: d))).1 = false := by
  refine ⟨?_, ?_, ?_⟩
  · simp [printDiff, printDiffHeader, streamReadLine, readLine_append, h1, h2,
      readLine_append l2 body h2]
  · simp [printDiff, printDiffHeader, streamReadLine, readLine_eq_none d hd]
  · simp [printDiff, printDiffHeader, streamReadLine, readLine_append l1 d h1,
      readLine_eq_none d hd]

/-- Witness for C7 on a concrete two-header diff and a concrete malformed
body. -/
theorem c7_diff_headers_and_body_witness :
    printDiff ['a', '.', 'p', 'y']
        (.ok (['-', 'I', 'n'] ++ '\n' :: (['+', 'O', 'u', 't'] ++ '\n' :: ['@', '@']))) =
      (true, replaceFirst (['-', 'I', 'n'] ++ ['\n']) ['I', 'n'] ['a', '.', 'p', 'y']
        ++ (replaceFirst (['+', 'O', 'u', 't'] ++ ['\n']) ['O', 'u', 't'] ['a', '.', 'p', 'y']
          ++ ['@', '@'])) ∧
    (printDiff ['a', '.', 'p', 'y'] (.ok ['o', 'o', 'p', 's'])).1 = false ∧
    (printDiff ['a', '.', 'p', 'y']
      (.ok (['-', 'I', 'n'] ++ '\n' :: ['o', 'o', 'p', 's']))).1 = false :=
  c7_diff_headers_and_body ['a', '.', 'p', 'y'] ['-', 'I', 'n'] ['+', 'O', 'u', 't']
    ['@', '@'] ['o', 'o', 'p', 's'] (by decide) (by decide) (by decide)

/-- C8 counterexample: a read failure on a 400 response's body is NOT
converted into a per-path `Error` action — `newStringFromReader` panics and
the panic terminates the process. -/
theorem c8_counterexample_body_read_panics :
    (processPath ⟨false, false⟩ ['a'] (.response 400 .failed) ⟨true, true⟩).outcome
        = ProcOutcome.panicked ∧
    (processPath ⟨false, false⟩ ['a'] (.response 400 .failed) ⟨true, true⟩).outcome
        ≠ ProcOutcome.action .Error := by
  decide

/-- C8 as amended: every per-path failure that surfaces as an error value —
transport/open failure, a 400 or 500 status with a readable body, a malformed
diff in diff mode, a write/sync failure — is converted into an `Error` action
for that path (so it cannot stop the run); but a failure while reading a 400
or 500 response's body panics and terminates the process instead. -/
theorem c8_per_path_error_boundary (conf : BlackConfig) (path s d : List Char)
    (fs : FsEnv) (hd : '\n' ∉ d) :
    (processPath conf path .failure fs).outcome = .action .Error ∧
    (processPath conf path (.response 400 (.ok s)) fs).outcome = .action .Error ∧
    (processPath conf path (.response 500 (.ok s)) fs).outcome = .action .Error ∧
    (processPath ⟨conf.check, true⟩ path (.response 200 (.ok d)) fs).outcome
      = .action .Error ∧
    (processPath ⟨false, false⟩ path (.response 200 (.ok s)) ⟨true, false⟩).outcome
      = .action .Error ∧
    (processPath conf path (.response 400 .failed) fs).outcome = .panicked ∧
    (processPath conf path (.response 500 .failed) fs).outcome = .panicked := by
  refine ⟨rfl, ?_, ?_, ?_, ?_, rfl, rfl⟩
  · simp [processPath, newBlackResult, newStringFromReader]
  · simp [processPath, newBlackResult, newStringFromReader]
  · simp [processPath, newBlackResult, printDiff, printDiffHeader, streamReadLine,
      readLine_eq_none d hd]
  · simp [processPath, newBlackResult, overwritePath]

/-- Witness for C8 (amended) at concrete inputs. -/
theorem c8_per_path_error_boundary_witness :
    (processPath ⟨false, false⟩ ['a'] .failure ⟨true, true⟩).outcome
      = .action .Error ∧
    (processPath ⟨false, false⟩ ['a'] (.response 400 (.ok ['m'])) ⟨true, true⟩).outcome
      = .action .Error ∧
    (processPath ⟨false, false⟩ ['a'] (.response 500 (.ok ['m'])) ⟨true, true⟩).outcome
      = .action .Error ∧
    (processPath ⟨(⟨false, false⟩ : BlackConfig).check, true⟩ ['a']
      (.response 200 (.ok ['x'])) ⟨true, true⟩).outcome = .action .Error ∧
    (processPath ⟨false, false⟩ ['a'] (.response 200 (.ok ['m'])) ⟨true, false⟩).outcome
      = .action .Error ∧
    (processPath ⟨false, false⟩ ['a'] (.response 400 .failed) ⟨true, true⟩).outcome
      = .panicked ∧
    (processPath ⟨false, false⟩ ['a'] (.response 500 .failed) ⟨true, true⟩).outcome
      = .panicked :=
  c8_per_path_error_boundary ⟨false, false⟩ ['a'] ['m'] ['x'] ⟨true, true⟩ (by decide)

/-- C10: in diff mode, when the first header line is well formed but the
second is missing or unterminated, the path is classified `Error` only after
the first header line — with the path already substituted — has been written
to stdout: the partial diff output (containing its newline) precedes the
`Error` classification. -/
theorem c10_partial_output_before_error (check : Bool) (path l1 t : List Char)
    (fs : FsEnv) (h1 : '\n' ∉ l1) (h2 : '\n' ∉ t) :
    processPath ⟨check, true⟩ path (.response 200 (.ok (l1 ++ '\n' :: t))) fs =
      ⟨.action .Error, replaceFirst (l1 ++ ['\n']) ['I', 'n'] path, none⟩ ∧
    '\n' ∈ replaceFirst (l1 ++ ['\n']) ['I', 'n'] path := by
  constructor
  · simp [processPath, newBlackResult, printDiff, printDiffHeader, streamReadLine,
      readLine_append l1 t h1, readLine_eq_none t h2]
  · exact newline_mem_replaceFirst (l1 ++ ['\n']) ['I', 'n'] path (by simp) (by decide)

/-- Witness for C10 on a concrete diff whose second header line is missing. -/
theorem c10_partial_output_before_error_witness :
    processPath ⟨false, true⟩ ['a', '.', 'p', 'y']
        (.response 200 (.ok (['-', 'I', 'n'] ++ '\n' :: ['o', 'o', 'p', 's'])))
        ⟨true, true⟩ =
      ⟨.action .Error,
       replaceFirst (['-', 'I', 'n'] ++ ['\n']) ['I', 'n'] ['a', '.', 'p', 'y'],
       none⟩ ∧
    '\n' ∈ replaceFirst (['-', 'I', 'n'] ++ ['\n']) ['I', 'n'] ['a', '.', 'p', 'y'] :=
  c10_partial_output_before_error false ['a', '.', 'p', 'y'] ['-', 'I', 'n']
    ['o', 'o', 'p', 's'] ⟨true, true⟩ (by decide) (by decide)

end BlackClient
